import Mathlib

set_option linter.unusedVariables false

/-!
Shallow embedding of the Zillow real-estate data pipeline
(`zipwiseproperties.py`, `propertyfields.py`, `scraper.py`).

Modelling conventions:
* Python dicts / JSON values are the inductive `J`; dict assignment,
  lookup and deletion follow the insertion-order semantics of Python
  dicts (`setKey` replaces in place, otherwise appends).
* A fetched page is modelled as the parse-relevant content the code
  extracts from it: the (already JSON-decoded) `__NEXT_DATA__` script
  block for search pages, and the title / meta-description /
  overview-stats nodes for detail pages.
* A search URL is the pair of the text before `?searchQueryState=`
  and the decoded query-state dict; `urllib.parse.quote`/`unquote`
  and `json.dumps`/`loads` are exact inverses, so mutating the URL's
  query state is mutating the second component.
* Fallible Python code runs in `Except PyErr`; an uncaught Python
  exception is `Except.error`.
* Network I/O is an oracle supplied as an environment: per call index
  for the retry loop, per URL for the crawl/harvest phases.
-/

namespace ZillowPipeline

/-- Python exceptions that the modelled code can raise. -/
inductive PyErr where
  | keyError (k : String)
  | typeError (msg : String)
  | attributeError (msg : String)
  | valueError (msg : String)
  | indexError (msg : String)
  deriving Repr, DecidableEq

/-- JSON-like values, standing for the Python dict/list/str/int values
the pipeline manipulates. -/
inductive J where
  | num (n : Int)
  | str (s : String)
  | jbool (b : Bool)
  | jnull
  | arr (xs : List J)
  | obj (fields : List (String × J))

/-- Python dict lookup `d.get(k)` on an ordered association list. -/
def getKey : List (String × J) → String → Option J
  | [], _ => none
  | (k', v) :: rest, k => if k' = k then some v else getKey rest k

/-- Python dict assignment `d[k] = v`: replaces the value in place when
the key exists, otherwise appends the new binding. -/
def setKey : List (String × J) → String → J → List (String × J)
  | [], k, v => [(k, v)]
  | (k', v') :: rest, k, v =>
      if k' = k then (k, v) :: rest else (k', v') :: setKey rest k v

/-- Python `del d[k]` / the removal part of `d.pop(k)`. -/
def delKey : List (String × J) → String → List (String × J)
  | [], _ => []
  | (k', v') :: rest, k => if k' = k then rest else (k', v') :: delKey rest k

/-- Python `k in d`. -/
def hasKey (fs : List (String × J)) (k : String) : Bool := (getKey fs k).isSome

/-- Python subscripting `j[k]`: `KeyError` when the key is absent,
`TypeError` when the value is not a dict. -/
def pyGet (j : J) (k : String) : Except PyErr J :=
  match j with
  | .obj fs =>
      match getKey fs k with
      | some v => Except.ok v
      | none => Except.error (.keyError k)
  | _ => Except.error (.typeError "object is not subscriptable")

theorem getKey_setKey_same (fs : List (String × J)) (k : String) (v : J) :
    getKey (setKey fs k v) k = some v := by
  induction fs with
  | nil => simp [setKey, getKey]
  | cons p rest ih =>
      by_cases h : p.1 = k
      · simp [setKey, getKey, h]
      · simp [setKey, getKey, h, ih]

theorem getKey_setKey_ne (fs : List (String × J)) (k k' : String) (v : J)
    (h : k' ≠ k) : getKey (setKey fs k v) k' = getKey fs k' := by
  have hne : ¬ k = k' := fun h' => h h'.symm
  induction fs with
  | nil => simp [setKey, getKey, hne]
  | cons p rest ih =>
      obtain ⟨pk, pv⟩ := p
      by_cases hp : pk = k
      · subst hp
        simp [setKey, getKey, hne]
      · simp [setKey, getKey, hp, ih]

/-- A search URL: the text before `?searchQueryState=` (with its
trailing slash) paired with the decoded query-state dict. -/
abbrev Url := String × List (String × J)

/-- Python `s.rstrip(c)` for the slash character. -/
def rstripSlash (s : String) : String :=
  String.mk ((s.toList.reverse.dropWhile (fun c => c = '/')).reverse)

/-- The price/mp/beds range dict written by the URL-mutation helpers:
`min` only, or `min` and `max`. -/
def rangeJ (mn : Int) (mx : Option Int) : J :=
  match mx with
  | none => .obj [("min", .num mn)]
  | some m => .obj [("min", .num mn), ("max", .num m)]

/-- Source `zipwiseproperties.update_url_with_price`: rebuilds the URL with the
`price` and `mp` filters replaced in the decoded search-query state.
`min_mp` defaults to `0` and `max_price`/`max_mp` to `None` at the call
sites in `scraper.py`. -/
def update_url_with_price (base_url : Url) (min_price : Int)
    (max_price : Option Int) (min_mp : Int) (max_mp : Option Int) :
    Except PyErr Url :=
  let base_part := rstripSlash base_url.1
  match getKey base_url.2 "filterState" with
  | some (J.obj fs) =>
      let fs1 := setKey fs "price" (rangeJ min_price max_price)
      let fs2 := setKey fs1 "mp" (rangeJ min_mp max_mp)
      Except.ok (base_part ++ "/", setKey base_url.2 "filterState" (J.obj fs2))
  | some _ => Except.error (.typeError "item assignment not supported")
  | none => Except.error (.keyError "filterState")

/-- Source `zipwiseproperties.update_url_with_beds`: rebuilds the URL with the
`beds` filter replaced in the decoded search-query state. -/
def update_url_with_beds (base_url : Url) (min_beds : Int)
    (max_beds : Option Int) : Except PyErr Url :=
  let base_part := rstripSlash base_url.1
  match getKey base_url.2 "filterState" with
  | some (J.obj fs) =>
      let fs1 := setKey fs "beds" (rangeJ min_beds max_beds)
      Except.ok (base_part ++ "/", setKey base_url.2 "filterState" (J.obj fs1))
  | some _ => Except.error (.typeError "item assignment not supported")
  | none => Except.error (.keyError "filterState")

/-- Source `zipwiseproperties.update_url_with_page`: sets the pagination cursor
and inserts the `/N_p/` path segment. -/
def update_url_with_page (base_url : Url) (page_number : Nat) : Url :=
  let base_part := rstripSlash base_url.1
  (base_part ++ "/" ++ toString page_number ++ "_p/",
   setKey base_url.2 "pagination" (J.obj [("currentPage", J.num page_number)]))

/-- A `<dt>` node inside the overview-stats `<dl>` of a detail page:
whether it carries a `class` attribute, and the text of its `<strong>`
child when it has one. -/
structure Dt where
  hasClass : Bool
  strongText : Option String
  deriving Repr, DecidableEq

/-- A fetched page, reduced to the content the pipeline reads from it:
the JSON-decoded `__NEXT_DATA__` script block (search pages), and the
title text, meta-description content and overview-stats `<dt>` list
(detail pages).  `none` means the node is absent from the markup. -/
structure Html where
  nextData : Option J
  titleText : Option String
  metaDescription : Option String
  statsDl : Option (List Dt)

/-- Holds on `Except.ok`, used to state that a call does not raise. -/
def exceptOk {ε α : Type} : Except ε α → Bool
  | .ok _ => true
  | .error _ => false

/-- Source `zipwiseproperties.parse_properties`: returns the listing links of
the embedded search results, or `None` when the `__NEXT_DATA__` script
is absent; raises `KeyError` when the decoded block lacks the expected
nesting. -/
def parse_properties (html : Html) : Except PyErr (Option (List String)) :=
  match html.nextData with
  | none => Except.ok none
  | some data_json => do
      let a ← pyGet data_json "props"
      let b ← pyGet a "pageProps"
      let c ← pyGet b "searchPageState"
      let d ← pyGet c "cat1"
      let e ← pyGet d "searchResults"
      let property_data ← pyGet e "listResults"
      match property_data with
      | .arr props => do
          let links ← props.mapM (fun p => do
            let u ← pyGet p "detailUrl"
            match u with
            | .str s => Except.ok s
            | _ => Except.error (.typeError "detailUrl is not a string"))
          Except.ok (some links)
      | _ => Except.error (.typeError "listResults is not a list")

/-- Source `zipwiseproperties.total_pages`: reads the reported total page
count out of the embedded block.  Unlike the parse functions it has no
missing-script guard: `data_script.string` on a missing script raises
`AttributeError`, and calling it on `None` instead of an HTML string
(as `scraper.py` line 128 does after a failed facet fetch) raises
`TypeError` inside `BeautifulSoup(None, ...)`. -/
def total_pages (html : Option Html) : Except PyErr Int :=
  match html with
  | none => Except.error (.typeError "object of type NoneType has no len")
  | some h =>
      match h.nextData with
      | none =>
          Except.error (.attributeError "NoneType object has no attribute string")
      | some data_json => do
          let a ← pyGet data_json "props"
          let b ← pyGet a "pageProps"
          let c ← pyGet b "searchPageState"
          let d ← pyGet c "cat1"
          let e ← pyGet d "searchList"
          let tp ← pyGet e "totalPages"
          match tp with
          | .num n => Except.ok n
          | _ => Except.error (.typeError "totalPages is not an int")

/-- The `sortSelection` → `sort` renaming and `isAllHomes` removal
shared by both query-state decoders. -/
def normalizeLegacyKeys (fs : List (String × J)) : List (String × J) :=
  let fs' := if hasKey fs "isAllHomes" then delKey fs "isAllHomes" else fs
  match getKey fs' "sortSelection" with
  | some v => setKey (delKey fs' "sortSelection") "sort" v
  | none => fs'

/-- Source `zipwiseproperties.parse_queryState`: extracts the base URL and the
query state from the embedded block and applies the "for-sale, active"
default filters; returns `(None, None)` (modelled `Except.ok none`)
when the `__NEXT_DATA__` script is absent. -/
def parse_queryState (html : Html) :
    Except PyErr (Option (J × List (String × J))) :=
  match html.nextData with
  | none => Except.ok none
  | some data_json => do
      let a ← pyGet data_json "props"
      let b ← pyGet a "pageProps"
      let sps ← pyGet b "searchPageState"
      let seo ← pyGet sps "searchPageSeoObject"
      let baseurl ← pyGet seo "baseUrl"
      let qsJ ← pyGet sps "queryState"
      match qsJ with
      | .obj qs0 =>
          let qs1 := setKey qs0 "ah" (J.obj [("value", J.jbool true)])
          let qs2 := setKey qs1 "isListVisible" (J.jbool true)
          let qs3 := setKey qs2 "mapZoom" (J.num 15)
          let qs4 := setKey qs3 "pagination" (J.obj [])
          match getKey qs4 "filterState" with
          | some (J.obj fs0) =>
              let fs1 := setKey fs0 "mf" (J.obj [("value", J.jbool false)])
              let fs2 := setKey fs1 "con" (J.obj [("value", J.jbool false)])
              let fs3 := setKey fs2 "land" (J.obj [("value", J.jbool false)])
              let fs4 := setKey fs3 "apa" (J.obj [("value", J.jbool false)])
              let fs5 := setKey fs4 "manu" (J.obj [("value", J.jbool false)])
              let fs6 := setKey fs5 "apco" (J.obj [("value", J.jbool false)])
              let fs7 := normalizeLegacyKeys fs6
              Except.ok (some (baseurl, setKey qs4 "filterState" (J.obj fs7)))
          | some _ => Except.error (.typeError "filterState is not a dict")
          | none => Except.error (.keyError "filterState")
      | _ => Except.error (.typeError "queryState is not a dict")

/-- Source `zipwiseproperties.parse_soldQueryState`: same skeleton as
`parse_queryState` with the "recently sold" filter set; returns
`(None, None)` when the `__NEXT_DATA__` script is absent. -/
def parse_soldQueryState (html : Html) :
    Except PyErr (Option (J × List (String × J))) :=
  match html.nextData with
  | none => Except.ok none
  | some data_json => do
      let a ← pyGet data_json "props"
      let b ← pyGet a "pageProps"
      let sps ← pyGet b "searchPageState"
      let seo ← pyGet sps "searchPageSeoObject"
      let baseurl ← pyGet seo "baseUrl"
      let qsJ ← pyGet sps "queryState"
      match qsJ with
      | .obj qs0 =>
          let qs1 := setKey qs0 "isListVisible" (J.jbool true)
          let qs2 := setKey qs1 "mapZoom" (J.num 15)
          let qs3 := setKey qs2 "pagination" (J.obj [])
          match getKey qs3 "filterState" with
          | some (J.obj fs0) =>
              let fs1 := setKey fs0 "mf" (J.obj [("value", J.jbool false)])
              let fs2 := setKey fs1 "con" (J.obj [("value", J.jbool false)])
              let fs3 := setKey fs2 "land" (J.obj [("value", J.jbool false)])
              let fs4 := setKey fs3 "apa" (J.obj [("value", J.jbool false)])
              let fs5 := setKey fs4 "manu" (J.obj [("value", J.jbool false)])
              let fs6 := setKey fs5 "rs" (J.obj [("value", J.jbool true)])
              let fs7 := setKey fs6 "fsba" (J.obj [("value", J.jbool false)])
              let fs8 := setKey fs7 "fsbo" (J.obj [("value", J.jbool false)])
              let fs9 := setKey fs8 "nc" (J.obj [("value", J.jbool false)])
              let fs10 := setKey fs9 "cmsn" (J.obj [("value", J.jbool false)])
              let fs11 := setKey fs10 "auc" (J.obj [("value", J.jbool false)])
              let fs12 := setKey fs11 "fore" (J.obj [("value", J.jbool false)])
              let fs13 := setKey fs12 "doz" (J.obj [("value", J.str "24m")])
              let fs14 := normalizeLegacyKeys fs13
              Except.ok (some (baseurl, setKey qs3 "filterState" (J.obj fs14)))
          | some _ => Except.error (.typeError "filterState is not a dict")
          | none => Except.error (.keyError "filterState")
      | _ => Except.error (.typeError "queryState is not a dict")

/-- What one `requests.post` call to the Zyte API can produce:
an HTTP response (with the decoded `httpResponseBody` when the payload
is well-formed, `none` otherwise), a `requests.exceptions.Timeout`, a
non-timeout `requests.exceptions.RequestException` raised by the
transport (carrying a response status when one exists), or any other
unexpected exception. -/
inductive FetchEvent where
  | resp (status : Nat) (reason : String) (body : Option String)
  | timeout (msg : String)
  | reqError (status : Option Nat) (msg : String)
  | otherExc (msg : String)
  deriving Repr, DecidableEq

/-- The `response.status_code in [429, 503, 520]` test. -/
def isTransientStatus (st : Nat) : Bool := st = 429 || st = 503 || st = 520

/-- Python `f"{status}: {reason}"`. -/
def httpErrMsg (status : Nat) (reason : String) : String :=
  Nat.repr status ++ ": " ++ reason

/-- Python `f"{e.response.status_code if e.response else 'No response'}: {str(e)}"`. -/
def reqErrMsg (status : Option Nat) (msg : String) : String :=
  (match status with
   | some st => Nat.repr st
   | none => "No response") ++ ": " ++ msg

/-- The `while retry_count < max_retries` loop of
`fetch_html_with_zyte`, with `calls` upstream calls already made (all
of which incremented `retry_count`), the current backoff `delay`, the
last recorded error message, and the sleeps performed so far.  The
fuel is `max_retries - retry_count`.  Returns the function's
`(html, error)` pair together with the total number of upstream calls
and the list of `time.sleep` delays, in order. -/
def fetchGo (responses : Nat → FetchEvent) (calls delay : Nat)
    (lastErr : Option String) (sleeps : List Nat) :
    Nat → (Option String × Option String) × Nat × List Nat
  | 0 => ((none, lastErr), calls, sleeps)
  | fuel + 1 =>
      match responses calls with
      | .resp st reason body =>
          if isTransientStatus st then
            fetchGo responses (calls + 1) (delay * 2)
              (some (httpErrMsg st reason)) (sleeps ++ [delay]) fuel
          else if 400 ≤ st then
            -- raise_for_status() raises HTTPError, caught as RequestException
            fetchGo responses (calls + 1) delay
              (some (reqErrMsg (some st) reason)) sleeps fuel
          else
            match body with
            | some b => ((some b, none), calls + 1, sleeps)
            | none =>
                -- malformed success payload: unexpected exception, break
                ((none, some "payload decode failure"), calls + 1, sleeps)
      | .timeout m =>
          fetchGo responses (calls + 1) delay
            (some ("Timeout: " ++ m)) sleeps fuel
      | .reqError st? m =>
          fetchGo responses (calls + 1) delay
            (some (reqErrMsg st? m)) sleeps fuel
      | .otherExc m => ((none, some m), calls + 1, sleeps)

/-- Source `zipwiseproperties.fetch_html_with_zyte`: retry loop over the
upstream oracle, instrumented with the call count and sleep trace.
Defaults in the source: `max_retries=5`, `initial_retry_delay=1`. -/
def fetch_html_with_zyte (responses : Nat → FetchEvent)
    (max_retries : Nat) (initial_retry_delay : Nat) :
    (Option String × Option String) × Nat × List Nat :=
  fetchGo responses 0 initial_retry_delay none [] max_retries

/-- Status-transient events: the ones whose retry is preceded by a
`time.sleep(retry_delay)` and doubles the delay. -/
def isStatusEvent : FetchEvent → Bool
  | .resp st _ _ => isTransientStatus st
  | _ => false

/-- Timeout events: retried with one attempt consumed but no sleep. -/
def isTimeoutEvent : FetchEvent → Bool
  | .timeout _ => true
  | _ => false

/-- The sleep trace the retry loop produces over a window of `fuel`
attempts starting at call index `i` with current delay `delay`, when
every attempt in the window is status-transient or a timeout. -/
def sleepsFor (responses : Nat → FetchEvent) (i delay : Nat) :
    Nat → List Nat
  | 0 => []
  | fuel + 1 =>
      if isStatusEvent (responses i) then
        delay :: sleepsFor responses (i + 1) (delay * 2) fuel
      else
        sleepsFor responses (i + 1) delay fuel

/-- Split a character list at every separator position, keeping empty
pieces, as Python `str.split(sep)` does. -/
def splitByList (p : Char → Bool) : List Char → List (List Char)
  | [] => [[]]
  | c :: rest =>
      let r := splitByList p rest
      if p c then [] :: r
      else
        match r with
        | [] => [[c]]
        | g :: gs => (c :: g) :: gs

/-- Python `s.split(sep)` for a one-character separator. -/
def pySplitChar (sep : Char) (s : String) : List String :=
  (splitByList (fun c => c = sep) s.toList).map (fun cs => String.mk cs)

/-- Python `s.split()`: split on whitespace, dropping empty pieces. -/
def pySplitWs (s : String) : List String :=
  ((splitByList (fun c => c.isWhitespace) s.toList).map
    (fun cs => String.mk cs)).filter (fun t => ¬ t = "")

/-- Python `s.strip()`. -/
def pyStrip (s : String) : String :=
  String.mk
    (((s.toList.dropWhile Char.isWhitespace).reverse.dropWhile
        Char.isWhitespace).reverse)

/-- The record built by `propertyfields.parsePropertyFields` (the
`'MLS #'` key is `mls` here). -/
structure PropertyDetails where
  address : String
  listed_price : String
  mls : String
  days_on_zillow : String
  views : String
  saves : String
  url : String
  deriving Repr, DecidableEq

/-- Source `propertyfields.extractPropertyInfo`: address and MLS number from
the title (a missing title or a title without `'|'` is caught and
degrades to `"N/A"`), listed price from the meta description.  The
meta part is outside the `try`: when the text after the first `'$'`
has no whitespace-separated token, `parts[1].split()[0]` raises an
uncaught `IndexError`. -/
def titleAddressMls (page : Html) : String × String :=
  match page.titleText with
  | none => ("N/A", "N/A")  -- soup.title is None: AttributeError, caught
  | some title_text =>
      match pySplitChar '|' title_text with
      | address :: mls :: _ =>
          (pyStrip address, pyStrip ((pySplitChar '#' (pyStrip mls)).getLastD ""))
      | _ => ("N/A", "N/A")  -- fewer than two parts: ValueError, caught

def extractPropertyInfo (page : Html) : Except PyErr (String × String × String) :=
  let addressMls := titleAddressMls page
  match page.metaDescription with
  | none => Except.ok (addressMls.1, addressMls.2, "N/A")
  | some content =>
      match pySplitChar '$' content with
      | _ :: part1 :: _ =>
          match pySplitWs part1 with
          | tok :: _ => Except.ok (addressMls.1, addressMls.2, tok)
          | [] => Except.error (.indexError "list index out of range")
      | _ => Except.ok (addressMls.1, addressMls.2, "N/A")

/-- Python `dt_elements[i].find('strong').text if len(dt_elements) > i else "N/A"`:
out of range gives `"N/A"`, a classless `<dt>` without a `<strong>`
child raises an uncaught `AttributeError`. -/
def statAt (dtEls : List Dt) (i : Nat) : Except PyErr String :=
  match dtEls[i]? with
  | none => Except.ok "N/A"
  | some d =>
      match d.strongText with
      | some t => Except.ok t
      | none =>
          Except.error (.attributeError "NoneType object has no attribute text")

/-- Source `propertyfields.extractStats`: the first three classless `<dt>`
entries of the overview-stats `<dl>`; all `"N/A"` when the `<dl>` is
absent. -/
def extractStats (page : Html) : Except PyErr (String × String × String) :=
  match page.statsDl with
  | none => Except.ok ("N/A", "N/A", "N/A")
  | some dts =>
      let dt_elements := dts.filter (fun d => !d.hasClass)
      match statAt dt_elements 0, statAt dt_elements 1, statAt dt_elements 2 with
      | .error e, _, _ => .error e
      | _, .error e, _ => .error e
      | _, _, .error e => .error e
      | .ok days_on_zillow, .ok views, .ok saves =>
          .ok (days_on_zillow, views, saves)

/-- Source `propertyfields.parsePropertyFields`: assembles the seven-field
record from the two extractors. -/
def parsePropertyFields (page : Html) (url : String) :
    Except PyErr PropertyDetails :=
  match extractPropertyInfo page with
  | .error e => .error e
  | .ok (address, mls, listed_price) =>
      match extractStats page with
      | .error e => .error e
      | .ok (days_on_zillow, views, saves) =>
          .ok ⟨address, listed_price, mls, days_on_zillow, views, saves, url⟩

/-- The network oracle for the area-discovery phase: what
`fetch_html_with_zyte` returns for each search URL, as the
`(html, error)` pair of its contract. -/
structure DiscEnv where
  fetch : Url → Option Html × Option String

/-- Python `range(2, total_pages_count + 1)`. -/
def pageNums (total : Int) : List Nat := List.range' 2 (total - 1).toNat

/-- The page URLs a direct pagination walk of `base_url` issues. -/
def pageTrace (base_url : Url) (total : Int) : List Url :=
  (pageNums total).map (update_url_with_page base_url)

/-- The loop body of `scraper.scrape_all_pages`, instrumented with the
list of URLs fetched: a failed fetch logs and skips the page, a parse
exception propagates (losing this helper's local accumulator). -/
def scrape_all_pages_go (env : DiscEnv) (base_url : Url) :
    List Nat → List String → List Url →
    Except PyErr (List String) × List Url
  | [], all_links, trace => (Except.ok all_links, trace)
  | page_number :: rest, all_links, trace =>
      let url := update_url_with_page base_url page_number
      match (env.fetch url).1 with
      | some html =>
          match parse_properties html with
          | .error e => (.error e, trace ++ [url])
          | .ok none =>
              scrape_all_pages_go env base_url rest all_links (trace ++ [url])
          | .ok (some links) =>
              -- `if links:` — extending by an empty list is a no-op anyway
              scrape_all_pages_go env base_url rest (all_links ++ links)
                (trace ++ [url])
      | none =>
          -- logged and skipped
          scrape_all_pages_go env base_url rest all_links (trace ++ [url])

/-- Source `scraper.scrape_all_pages`: pages 2 through `total_pages_count`. -/
def scrape_all_pages (env : DiscEnv) (base_url : Url) (total_pages_count : Int) :
    Except PyErr (List String) × List Url :=
  scrape_all_pages_go env base_url (pageNums total_pages_count) [] []

/-- The seven price bands of `scraper.scrape_properties`. -/
def price_filters : List (Int × Option Int) :=
  [(0, some 300000), (300001, some 400000), (400001, some 450000),
   (450001, some 500000), (500001, some 600000), (600001, some 800000),
   (800001, none)]

/-- The six bedroom bands of `scraper.scrape_properties`. -/
def bed_filters : List (Int × Option Int) :=
  [(0, some 0), (1, some 1), (2, some 2), (3, some 3), (4, some 4),
   (5, none)]

/-- The 7 × 6 facet sub-queries, price band crossed with bed band, in
the order the nested loops of `scrape_properties` issue them. -/
def facetPairs : List ((Int × Option Int) × (Int × Option Int)) :=
  price_filters.flatMap (fun p => bed_filters.map (fun b => (p, b)))

/-- The inner `for min_beds, max_beds in bed_filters` loop of
`scrape_properties` for one price filter.  Returns the accumulated
links, the fetch trace, and the exception that aborted the walk, if
any: a failed facet fetch makes `total_pages(None)` raise `TypeError`,
and a facet page without the `__NEXT_DATA__` script makes the
`len(links)` logging call raise `TypeError` on `None`. -/
def bedLoop (env : DiscEnv) (filtered_url : Url) :
    List (Int × Option Int) → List String → List Url →
    List String × List Url × Option PyErr
  | [], all_links, trace => (all_links, trace, none)
  | (min_beds, max_beds) :: rest, all_links, trace =>
      match update_url_with_beds filtered_url min_beds max_beds with
      | .error e => (all_links, trace, some e)
      | .ok bed_filtered_url =>
          match (env.fetch bed_filtered_url).1 with
          | none =>
              (all_links, trace ++ [bed_filtered_url],
               some (.typeError "object of type NoneType has no len"))
          | some html =>
              match total_pages (some html) with
              | .error e => (all_links, trace ++ [bed_filtered_url], some e)
              | .ok pages_count =>
                  match parse_properties html with
                  | .error e => (all_links, trace ++ [bed_filtered_url], some e)
                  | .ok none =>
                      (all_links, trace ++ [bed_filtered_url],
                       some (.typeError "object of type NoneType has no len"))
                  | .ok (some links) =>
                      match scrape_all_pages env bed_filtered_url pages_count with
                      | (.error e, ptrace) =>
                          (all_links ++ links,
                           trace ++ [bed_filtered_url] ++ ptrace, some e)
                      | (.ok plinks, ptrace) =>
                          bedLoop env filtered_url rest
                            (all_links ++ links ++ plinks)
                            (trace ++ [bed_filtered_url] ++ ptrace)

/-- The outer `for price_filter in price_filters` loop of
`scrape_properties`. -/
def priceLoop (env : DiscEnv) (base_url : Url) :
    List (Int × Option Int) → List String → List Url →
    List String × List Url × Option PyErr
  | [], all_links, trace => (all_links, trace, none)
  | (pmin, pmax) :: rest, all_links, trace =>
      match update_url_with_price base_url pmin pmax 0 none with
      | .error e => (all_links, trace, some e)
      | .ok filtered_url =>
          match bedLoop env filtered_url bed_filters all_links trace with
          | (all_links', trace', some e) => (all_links', trace', some e)
          | (all_links', trace', none) =>
              priceLoop env base_url rest all_links' trace'

/-- Source `scraper.scrape_properties`: fetch the base page, take its links
and reported total-page count, then either page directly (count < 20)
or walk the 7 × 6 price-by-beds facets (count ≥ 20).  Any exception in
the walk is caught at the area boundary and the area yields the links
accumulated so far.  The result is the deduplicated link list, the
fetch trace, and the caught exception, if any. -/
def scrape_properties (env : DiscEnv) (zip_code : String) (base_url : Url) :
    List String × List Url × Option PyErr :=
  match (env.fetch base_url).1 with
  | none => ([], [base_url], none)  -- early `return all_links`
  | some html =>
      match parse_properties html with
      | .error e => ([], [base_url], some e)
      | .ok linksOpt =>
          let all_links := match linksOpt with
            | some links => links
            | none => []
          match total_pages (some html) with
          | .error e => (all_links.dedup, [base_url], some e)
          | .ok total_pages_count =>
              if 20 ≤ total_pages_count then
                match priceLoop env base_url price_filters all_links [base_url] with
                | (acc, trace, e?) => (acc.dedup, trace, e?)
              else
                match scrape_all_pages env base_url total_pages_count with
                | (.error e, ptrace) =>
                    (all_links.dedup, [base_url] ++ ptrace, some e)
                | (.ok plinks, ptrace) =>
                    ((all_links ++ plinks).dedup, [base_url] ++ ptrace, none)

/-- The network oracle plus clock for one harvest pass over detail
URLs: what `fetch_html_with_zyte` returns per URL, and the timestamp
`datetime.now()` yields. -/
structure HarvestEnv where
  fetch : String → Option Html × Option String
  now : String

/-- The two output sinks of the harvest phase: the results CSV rows
(record plus timestamp) and the error-ledger rows (url, message). -/
structure FS where
  results : List (PropertyDetails × String)
  errors : List (String × String)
  deriving Repr, DecidableEq

/-- One harvest pass's mutable state: the sinks plus the two shared
counters (`success_counter` / `error_counter` list lengths). -/
structure PassSt where
  fs : FS
  succCount : Nat
  errCount : Nat
  deriving Repr, DecidableEq

/-- Python `str(error)` where `error` is the second component of the
fetch result (`str(None) = "None"`). -/
def errStr : Option String → String
  | none => "None"
  | some s => s

/-- Source `scraper.process_url`: fetch the detail page; on content, extract
the record, stamp it and append it to the results sink, incrementing
the success counter; on fetch failure, append `(url, error)` to the
error sink, incrementing the error counter.  An extractor exception
propagates out of the worker. -/
def process_url (env : HarvestEnv) (url : String) (st : PassSt) :
    Except PyErr PassSt :=
  match env.fetch url with
  | (some html, _) =>
      match parsePropertyFields html url with
      | .error e => .error e
      | .ok property_details =>
          Except.ok ⟨⟨st.fs.results ++ [(property_details, env.now)], st.fs.errors⟩,
            st.succCount + 1, st.errCount⟩
  | (none, error) =>
      Except.ok ⟨⟨st.fs.results, st.fs.errors ++ [(url, errStr error)]⟩,
        st.succCount, st.errCount + 1⟩

/-- The worker pool of `scrape_city` / `retry_failed_urls`: every URL
is processed once; the pool is modelled as a sequential fold (the
claims settled here are about the counters and sink contents, which
each completed call changes by exactly one row). -/
def processPass (env : HarvestEnv) : List String → PassSt → Except PyErr PassSt
  | [], st => Except.ok st
  | url :: rest, st =>
      match process_url env url st with
      | .error e => .error e
      | .ok st' => processPass env rest st'

/-- Source `scraper.scrape_city`: one harvest pass over the links with fresh
counters, against the given sinks. -/
def scrape_city (env : HarvestEnv) (property_links : List String) (fs : FS) :
    Except PyErr PassSt :=
  processPass env property_links ⟨fs, 0, 0⟩

/-- Source `scraper.retry_failed_urls`: read the URLs out of the error
ledger, reinitialize the ledger (`os.remove(error_file)`), and
resubmit every URL through `process_url` against the same results
sink, with fresh counters.  An absent or empty ledger returns without
doing anything. -/
def retry_failed_urls (env : HarvestEnv) (fs : FS) : Except PyErr PassSt :=
  let error_urls := fs.errors.map (fun row => row.1)
  if error_urls.isEmpty then
    Except.ok ⟨fs, 0, 0⟩
  else
    processPass env error_urls ⟨⟨fs.results, []⟩, 0, 0⟩

/-- Steps 2 and 3 of `scraper.main` for one city: one harvest pass
over the discovered links, then exactly one retry pass over the error
ledger.  `env1` and `env2` are the upstream's behaviour during the
first and the retry pass. -/
def runCity (env1 env2 : HarvestEnv) (property_links : List String) :
    Except PyErr PassSt :=
  match scrape_city env1 property_links ⟨[], []⟩ with
  | .error e => .error e
  | .ok st1 => retry_failed_urls env2 st1.fs

/-! ## Safety predicates used by the amended claims -/

/-- Holds when a `<dt>` slot, if occupied, has a `<strong>` child. -/
def strongOk : Option Dt → Bool
  | none => true
  | some d => d.strongText.isSome

/-- The detail page's overview stats cannot make `extractStats` raise:
each of the first three classless `<dt>` entries has a `<strong>`
child. -/
def statsSafe (page : Html) : Bool :=
  match page.statsDl with
  | none => true
  | some dts =>
      let els := dts.filter (fun d => !d.hasClass)
      strongOk els[0]? && strongOk els[1]? && strongOk els[2]?

/-- The detail page's meta description cannot make
`extractPropertyInfo` raise: when it contains a `'$'`, some
whitespace-separated token follows it. -/
def metaSafe (page : Html) : Bool :=
  match page.metaDescription with
  | none => true
  | some content =>
      match pySplitChar '$' content with
      | _ :: part1 :: _ => ¬ (pySplitWs part1).isEmpty
      | _ => true

theorem statAt_ok (els : List Dt) (i : Nat)
    (h : strongOk els[i]? = true) : ∃ s, statAt els i = Except.ok s := by
  cases hg : els[i]? with
  | none => exact ⟨"N/A", by simp [statAt, hg]⟩
  | some d =>
      rw [hg] at h
      cases hd : d.strongText with
      | none => simp [strongOk, hd] at h
      | some t => exact ⟨t, by simp [statAt, hg, hd]⟩

theorem extractStats_ok (page : Html) (hs : statsSafe page = true) :
    ∃ t, extractStats page = Except.ok t ∧
      (page.statsDl = none → t = ("N/A", "N/A", "N/A")) := by
  cases hdl : page.statsDl with
  | none =>
      exact ⟨("N/A", "N/A", "N/A"), by simp [extractStats, hdl], fun _ => rfl⟩
  | some dts =>
      unfold statsSafe at hs
      rw [hdl] at hs
      simp only [Bool.and_eq_true] at hs
      obtain ⟨⟨h0, h1⟩, h2⟩ := hs
      obtain ⟨s0, e0⟩ := statAt_ok _ 0 h0
      obtain ⟨s1, e1⟩ := statAt_ok _ 1 h1
      obtain ⟨s2, e2⟩ := statAt_ok _ 2 h2
      refine ⟨(s0, s1, s2), by simp [extractStats, hdl, e0, e1, e2], ?_⟩
      intro hcontra
      exact Option.noConfusion hcontra

theorem extractPropertyInfo_ok (page : Html) (hm : metaSafe page = true) :
    ∃ lp, extractPropertyInfo page =
        Except.ok ((titleAddressMls page).1, (titleAddressMls page).2, lp) ∧
      (page.metaDescription = none → lp = "N/A") := by
  cases hmd : page.metaDescription with
  | none => exact ⟨"N/A", by simp [extractPropertyInfo, hmd], fun _ => rfl⟩
  | some content =>
      unfold metaSafe at hm
      rw [hmd] at hm
      dsimp only at hm
      cases hsp : pySplitChar '$' content with
      | nil => exact ⟨"N/A", by simp [extractPropertyInfo, hmd, hsp], by simp⟩
      | cons p0 rest =>
          cases rest with
          | nil =>
              exact ⟨"N/A", by simp [extractPropertyInfo, hmd, hsp], by simp⟩
          | cons part1 rest' =>
              rw [hsp] at hm
              dsimp only at hm
              cases hws : pySplitWs part1 with
              | nil =>
                  rw [hws] at hm
                  simp at hm
              | cons tok toks =>
                  exact ⟨tok, by simp [extractPropertyInfo, hmd, hsp, hws],
                    by simp⟩

/-- Claim C4 — counterexample: on a page with no embedded
`__NEXT_DATA__` block, `total_pages` does not return a not-found
result; it raises (`data_script.string` on `None`). -/
theorem claim_C4_counterexample :
    total_pages (some ⟨none, none, none, none⟩) =
      Except.error (PyErr.attributeError "NoneType object has no attribute string") :=
  rfl

/-- Claim C4, amended: on a page whose embedded structured-data block
is absent, `parse_properties`, `parse_queryState` and
`parse_soldQueryState` each return an explicit not-found result and do
not raise, but `total_pages` raises `AttributeError`. -/
theorem claim_C4_amended (h : Html) (habs : h.nextData = none) :
    parse_properties h = Except.ok none ∧
    parse_queryState h = Except.ok none ∧
    parse_soldQueryState h = Except.ok none ∧
    total_pages (some h) =
      Except.error (PyErr.attributeError "NoneType object has no attribute string") := by
  obtain ⟨nd, tt, md, sd⟩ := h
  cases habs
  exact ⟨rfl, rfl, rfl, rfl⟩

/-- Witness for claim C4's amended theorem at a concrete block-less page. -/
theorem claim_C4_witness :
    (⟨none, none, none, none⟩ : Html).nextData = none ∧
    (parse_properties ⟨none, none, none, none⟩ = Except.ok none ∧
     parse_queryState ⟨none, none, none, none⟩ = Except.ok none ∧
     parse_soldQueryState ⟨none, none, none, none⟩ = Except.ok none ∧
     total_pages (some ⟨none, none, none, none⟩) =
       Except.error (PyErr.attributeError "NoneType object has no attribute string")) :=
  ⟨rfl, claim_C4_amended ⟨none, none, none, none⟩ rfl⟩

/-- Claim C9 — counterexample: a detail page whose meta description
ends right after a `'$'` makes `parsePropertyFields` raise an uncaught
`IndexError` (`parts[1].split()[0]` on an empty token list), so the
extractor does not always substitute `"N/A"` and return. -/
theorem claim_C9_counterexample :
    parsePropertyFields ⟨none, none, some "Sold for $", none⟩ "http://x/1" =
      Except.error (PyErr.indexError "list index out of range") := by
  rfl

/-- Claim C9, amended: `parsePropertyFields` returns the seven-field
record with `"N/A"` substituted for every absent field, provided the
meta description's first `'$'` (when present) is followed by a
whitespace-separated token and each of the first three classless
stats `<dt>` entries has a `<strong>` child; outside those provisos it
raises (`IndexError` / `AttributeError`). -/
theorem claim_C9_amended (page : Html) (url : String)
    (hm : metaSafe page = true) (hs : statsSafe page = true) :
    ∃ r, parsePropertyFields page url = Except.ok r ∧ r.url = url ∧
      (page.titleText = none → r.address = "N/A" ∧ r.mls = "N/A") ∧
      (page.metaDescription = none → r.listed_price = "N/A") ∧
      (page.statsDl = none →
        r.days_on_zillow = "N/A" ∧ r.views = "N/A" ∧ r.saves = "N/A") := by
  obtain ⟨lp, hinfo, hlp⟩ := extractPropertyInfo_ok page hm
  obtain ⟨⟨d, v, s⟩, hstats, hna⟩ := extractStats_ok page hs
  refine ⟨⟨(titleAddressMls page).1, lp, (titleAddressMls page).2, d, v, s, url⟩,
    ?_, rfl, ?_, ?_, ?_⟩
  · simp [parsePropertyFields, hinfo, hstats]
  · intro h
    simp [titleAddressMls, h]
  · exact hlp
  · intro h
    simpa using hna h

/-- Witness for claim C9's amended theorem at a concrete all-absent page. -/
theorem claim_C9_witness :
    metaSafe ⟨none, none, none, none⟩ = true ∧
    statsSafe ⟨none, none, none, none⟩ = true ∧
    ∃ r, parsePropertyFields ⟨none, none, none, none⟩ "u" = Except.ok r ∧
      r.url = "u" ∧
      ((⟨none, none, none, none⟩ : Html).titleText = none →
        r.address = "N/A" ∧ r.mls = "N/A") ∧
      ((⟨none, none, none, none⟩ : Html).metaDescription = none →
        r.listed_price = "N/A") ∧
      ((⟨none, none, none, none⟩ : Html).statsDl = none →
        r.days_on_zillow = "N/A" ∧ r.views = "N/A" ∧ r.saves = "N/A") :=
  ⟨rfl, rfl, claim_C9_amended ⟨none, none, none, none⟩ "u" rfl rfl⟩

/-- Claim C2: for a URL whose every fetch attempt yields HTTP 429,
`fetch_html_with_zyte` makes exactly 5 upstream calls, sleeping
1, 2, 4, 8 and 16 time units before the respective retries, and then
returns `(None, last error message)` — carrying the last observed
status and reason — instead of raising. -/
theorem claim_C2 (responses : Nat → FetchEvent) (reasons : Nat → String)
    (bodies : Nat → Option String)
    (h : ∀ i, i < 5 → responses i = .resp 429 (reasons i) (bodies i)) :
    fetch_html_with_zyte responses 5 1 =
      ((none, some (httpErrMsg 429 (reasons 4))), 5, [1, 2, 4, 8, 16]) := by
  have h0 := h 0 (by omega)
  have h1 := h 1 (by omega)
  have h2 := h 2 (by omega)
  have h3 := h 3 (by omega)
  have h4 := h 4 (by omega)
  simp [fetch_html_with_zyte, fetchGo, h0, h1, h2, h3, h4, isTransientStatus]

/-- Witness for claim C2 at a concrete constantly-429 upstream. -/
theorem claim_C2_witness :
    fetch_html_with_zyte (fun _ => .resp 429 "Too Many Requests" none) 5 1 =
      ((none, some (httpErrMsg 429 "Too Many Requests")), 5, [1, 2, 4, 8, 16]) :=
  claim_C2 (fun _ => .resp 429 "Too Many Requests" none)
    (fun _ => "Too Many Requests") (fun _ => none) (fun _ _ => rfl)

/-- Claim C3 — counterexample: a URL whose every attempt times out
consumes all 5 attempts of the budget but performs no backoff sleep at
all, so a timeout retry is not "preceded by the current
exponential-backoff delay" and the delay never doubles. -/
theorem claim_C3_counterexample :
    fetch_html_with_zyte (fun _ => .timeout "read timed out") 5 1 =
      ((none, some ("Timeout: " ++ "read timed out")), 5, []) ∧
    ([] : List Nat) ≠ [1, 2, 4, 8, 16] :=
  ⟨rfl, by simp⟩

theorem fetchGo_transient (responses : Nat → FetchEvent) :
    ∀ (fuel calls delay : Nat) (lastErr : Option String) (sleeps : List Nat),
    (∀ i, calls ≤ i → i < calls + fuel →
      (isStatusEvent (responses i) || isTimeoutEvent (responses i)) = true) →
    ∃ m, fetchGo responses calls delay lastErr sleeps fuel =
      ((none, m), calls + fuel,
       sleeps ++ sleepsFor responses calls delay fuel) := by
  intro fuel
  induction fuel with
  | zero =>
      intro calls delay lastErr sleeps h
      exact ⟨lastErr, by simp [fetchGo, sleepsFor]⟩
  | succ n ih =>
      intro calls delay lastErr sleeps h
      have hc := h calls (le_refl _) (by omega)
      have harith : calls + 1 + n = calls + (n + 1) := by omega
      cases hr : responses calls with
      | resp st reason body =>
          rw [hr] at hc
          simp only [isStatusEvent, isTimeoutEvent, Bool.or_false] at hc
          obtain ⟨m, hm⟩ := ih (calls + 1) (delay * 2)
            (some (httpErrMsg st reason)) (sleeps ++ [delay])
            (fun i hi1 hi2 => h i (by omega) (by omega))
          refine ⟨m, ?_⟩
          rw [harith] at hm
          simp [fetchGo, sleepsFor, hr, hc, isStatusEvent, hm]
      | timeout msg =>
          obtain ⟨m, hm⟩ := ih (calls + 1) delay
            (some ("Timeout: " ++ msg)) sleeps
            (fun i hi1 hi2 => h i (by omega) (by omega))
          refine ⟨m, ?_⟩
          rw [harith] at hm
          simp [fetchGo, sleepsFor, hr, isStatusEvent, hm]
      | reqError st? msg =>
          rw [hr] at hc
          simp [isStatusEvent, isTimeoutEvent] at hc
      | otherExc msg =>
          rw [hr] at hc
          simp [isStatusEvent, isTimeoutEvent] at hc

/-- Claim C3, amended: an HTTP 429/503/520 response consumes one
attempt of the budget and its retry is preceded by the current backoff
delay, which starts at the base delay and doubles after each such
delayed retry; a request timeout also consumes one attempt but is
retried immediately, with no preceding delay and no doubling (the
sleep trace is exactly `sleepsFor`, which records a delay only for the
status-transient attempts). -/
theorem claim_C3_amended (responses : Nat → FetchEvent) (d : Nat)
    (h : ∀ i, i < 5 →
      (isStatusEvent (responses i) || isTimeoutEvent (responses i)) = true) :
    ∃ m, fetch_html_with_zyte responses 5 d =
      ((none, m), 5, sleepsFor responses 0 d 5) := by
  obtain ⟨m, hm⟩ :=
    fetchGo_transient responses 5 0 d none [] (fun i hi1 hi2 => h i (by omega))
  exact ⟨m, by simpa [fetch_html_with_zyte] using hm⟩

/-- A concrete upstream alternating 429 and timeout. -/
def respMixed : Nat → FetchEvent :=
  fun i => if i % 2 = 0 then .resp 429 "Too Many Requests" none
           else .timeout "read timed out"

/-- Witness for claim C3's amended theorem: three 429s interleaved
with two timeouts give five calls and the sleep trace 1, 2, 4. -/
theorem claim_C3_witness :
    (∀ i, i < 5 →
      (isStatusEvent (respMixed i) || isTimeoutEvent (respMixed i)) = true) ∧
    (∃ m, fetch_html_with_zyte respMixed 5 1 =
      ((none, m), 5, sleepsFor respMixed 0 1 5)) ∧
    sleepsFor respMixed 0 1 5 = [1, 2, 4] :=
  ⟨by decide, claim_C3_amended respMixed 1 (by decide), rfl⟩

/-- Claim C8 — counterexample: `update_url_with_price` does not leave
every other filter unchanged: besides `price` it always rewrites the
monthly-payment filter `mp` (to `min = 0` at the defaults used by
`scraper.py`), so an input state carrying `mp = min 5` comes back with
`mp = min 0`. -/
theorem claim_C8_counterexample :
    update_url_with_price
        ("https://x", [("filterState", J.obj [("mp", J.obj [("min", J.num 5)])])])
        100 none 0 none =
      Except.ok ("https://x/",
        [("filterState",
          J.obj [("mp", J.obj [("min", J.num 0)]),
                 ("price", J.obj [("min", J.num 100)])])]) ∧
    J.obj [("min", J.num 0)] ≠ J.obj [("min", J.num 5)] :=
  ⟨rfl, by simp⟩

/-- Claim C8, amended: for a URL with a decodable search-query state,
`update_url_with_price` sets the `price` filter to exactly the given
min/max and also sets the `mp` filter to the given monthly-payment
min/max (the call sites pass the defaults `min_mp = 0`,
`max_mp = None`); every `filterState` key other than `price` and `mp`,
and every top-level state key other than `filterState` (pagination
included), decodes back unchanged. -/
theorem claim_C8_amended (base_url : Url) (fs : List (String × J))
    (min_price : Int) (max_price : Option Int)
    (min_mp : Int) (max_mp : Option Int)
    (hfs : getKey base_url.2 "filterState" = some (J.obj fs)) :
    ∃ fs', update_url_with_price base_url min_price max_price min_mp max_mp =
        Except.ok (rstripSlash base_url.1 ++ "/",
          setKey base_url.2 "filterState" (J.obj fs')) ∧
      getKey fs' "price" = some (rangeJ min_price max_price) ∧
      getKey fs' "mp" = some (rangeJ min_mp max_mp) ∧
      (∀ k, k ≠ "price" → k ≠ "mp" → getKey fs' k = getKey fs k) ∧
      (∀ k, k ≠ "filterState" →
        getKey (setKey base_url.2 "filterState" (J.obj fs')) k =
          getKey base_url.2 k) := by
  refine ⟨setKey (setKey fs "price" (rangeJ min_price max_price)) "mp"
    (rangeJ min_mp max_mp), ?_, ?_, ?_, ?_, ?_⟩
  · simp [update_url_with_price, hfs]
  · rw [getKey_setKey_ne _ _ _ _ (by simp), getKey_setKey_same]
  · exact getKey_setKey_same _ _ _
  · intro k hk1 hk2
    rw [getKey_setKey_ne _ _ _ _ hk2, getKey_setKey_ne _ _ _ _ hk1]
  · intro k hk
    exact getKey_setKey_ne _ _ _ _ hk

/-- Witness for claim C8's amended theorem at a concrete URL whose
state carries a `beds` filter and a pagination cursor. -/
theorem claim_C8_witness :
    getKey ([("pagination", J.obj [("currentPage", J.num 3)]),
             ("filterState", J.obj [("beds", J.obj [("min", J.num 2)])])] :
            List (String × J)) "filterState" =
      some (J.obj [("beds", J.obj [("min", J.num 2)])]) ∧
    ∃ fs', update_url_with_price
        ("https://y/",
         [("pagination", J.obj [("currentPage", J.num 3)]),
          ("filterState", J.obj [("beds", J.obj [("min", J.num 2)])])])
        1 (some 2) 3 (some 4) =
        Except.ok (rstripSlash "https://y/" ++ "/",
          setKey [("pagination", J.obj [("currentPage", J.num 3)]),
                  ("filterState", J.obj [("beds", J.obj [("min", J.num 2)])])]
            "filterState" (J.obj fs')) ∧
      getKey fs' "price" = some (rangeJ 1 (some 2)) ∧
      getKey fs' "mp" = some (rangeJ 3 (some 4)) ∧
      (∀ k, k ≠ "price" → k ≠ "mp" →
        getKey fs' k = getKey [("beds", J.obj [("min", J.num 2)])] k) ∧
      (∀ k, k ≠ "filterState" →
        getKey (setKey [("pagination", J.obj [("currentPage", J.num 3)]),
                        ("filterState", J.obj [("beds", J.obj [("min", J.num 2)])])]
          "filterState" (J.obj fs')) k =
        getKey [("pagination", J.obj [("currentPage", J.num 3)]),
                ("filterState", J.obj [("beds", J.obj [("min", J.num 2)])])] k) :=
  ⟨rfl, claim_C8_amended
    ("https://y/",
     [("pagination", J.obj [("currentPage", J.num 3)]),
      ("filterState", J.obj [("beds", J.obj [("min", J.num 2)])])])
    [("beds", J.obj [("min", J.num 2)])] 1 (some 2) 3 (some 4) rfl⟩

/-! ## Harvest-pass bookkeeping -/

/-- The fetch for this URL produced content. -/
def fetchOk (env : HarvestEnv) (url : String) : Bool := (env.fetch url).1.isSome

/-- The results-sink row a URL contributes, when its fetch produced
content and the extractor succeeded. -/
def recordOf (env : HarvestEnv) (url : String) :
    Option (PropertyDetails × String) :=
  match (env.fetch url).1 with
  | some html =>
      match parsePropertyFields html url with
      | .ok pd => some (pd, env.now)
      | .error _ => none
  | none => none

/-- The error-sink row a URL contributes, when its fetch failed. -/
def errorRowOf (env : HarvestEnv) (url : String) :
    Option (String × String) :=
  match env.fetch url with
  | (some _, _) => none
  | (none, error) => some (url, errStr error)

theorem parsePropertyFields_url (html : Html) (u : String)
    (pd : PropertyDetails) (h : parsePropertyFields html u = Except.ok pd) :
    pd.url = u := by
  unfold parsePropertyFields at h
  cases hi : extractPropertyInfo html with
  | error e => rw [hi] at h; cases h
  | ok t =>
      obtain ⟨a, m, lp⟩ := t
      rw [hi] at h
      cases hsx : extractStats html with
      | error e => rw [hsx] at h; cases h
      | ok t2 =>
          obtain ⟨d, v, s⟩ := t2
          rw [hsx] at h
          cases h
          rfl

theorem errorRowOf_fst (env : HarvestEnv) (u : String) (row : String × String)
    (h : errorRowOf env u = some row) : row.1 = u ∧ fetchOk env u = false := by
  unfold errorRowOf at h
  cases hf : env.fetch u with
  | mk a b =>
      rw [hf] at h
      cases a with
      | some html => cases h
      | none =>
          cases h
          exact ⟨rfl, by simp [fetchOk, hf]⟩

theorem map_fst_filterMap_errorRowOf (env : HarvestEnv) (urls : List String) :
    (urls.filterMap (errorRowOf env)).map (fun r => r.1) =
      urls.filter (fun u => ¬ fetchOk env u) := by
  induction urls with
  | nil => rfl
  | cons u rest ih =>
      cases hf : env.fetch u with
      | mk a b =>
          cases a with
          | some html =>
              simp [List.filterMap_cons, List.filter_cons, errorRowOf, fetchOk,
                hf, ih]
          | none =>
              simp [List.filterMap_cons, List.filter_cons, errorRowOf, fetchOk,
                hf, ih]

theorem filter_split_length {α : Type} (p : α → Bool) (l : List α) :
    (l.filter p).length + (l.filter (fun a => ¬ p a)).length = l.length := by
  induction l with
  | nil => rfl
  | cons a t ih =>
      cases hpa : p a <;> simp [List.filter_cons, hpa, ← ih] <;> omega

/-- What one successful harvest pass does to the sinks and counters:
appends exactly the per-URL record/error rows, in submission order,
and counts them. -/
theorem processPass_ok_spec (env : HarvestEnv) :
    ∀ (urls : List String) (st st' : PassSt),
    processPass env urls st = Except.ok st' →
    st'.fs.results = st.fs.results ++ urls.filterMap (recordOf env) ∧
    st'.fs.errors = st.fs.errors ++ urls.filterMap (errorRowOf env) ∧
    st'.succCount = st.succCount + (urls.filter (fun u => fetchOk env u)).length ∧
    st'.errCount = st.errCount + (urls.filter (fun u => ¬ fetchOk env u)).length := by
  intro urls
  induction urls with
  | nil =>
      intro st st' h
      simp only [processPass] at h
      cases h
      simp
  | cons u rest ih =>
      intro st st' h
      simp only [processPass] at h
      cases hp : process_url env u st with
      | error e => rw [hp] at h; cases h
      | ok st1 =>
          rw [hp] at h
          obtain ⟨hr, he, hs, hec⟩ := ih st1 st' h
          unfold process_url at hp
          cases hf : env.fetch u with
          | mk a b =>
              rw [hf] at hp
              cases a with
              | some html =>
                  dsimp only at hp
                  cases hpf : parsePropertyFields html u with
                  | error e => rw [hpf] at hp; cases hp
                  | ok pd =>
                      rw [hpf] at hp
                      cases hp
                      refine ⟨?_, ?_, ?_, ?_⟩
                      · rw [hr]
                        simp [List.filterMap_cons, recordOf, hf, hpf]
                      · rw [he]
                        simp [List.filterMap_cons, errorRowOf, hf]
                      · rw [hs]
                        simp [List.filter_cons, fetchOk, hf]
                        omega
                      · rw [hec]
                        simp [List.filter_cons, fetchOk, hf]
              | none =>
                  dsimp only at hp
                  cases hp
                  refine ⟨?_, ?_, ?_, ?_⟩
                  · rw [hr]
                    simp [List.filterMap_cons, recordOf, hf]
                  · rw [he]
                    simp [List.filterMap_cons, errorRowOf, hf]
                  · rw [hs]
                    simp [List.filter_cons, fetchOk, hf]
                  · rw [hec]
                    simp [List.filter_cons, fetchOk, hf]
                    omega

/-- In a successful pass, every submitted URL whose fetch produced
content contributed a record carrying that URL. -/
theorem processPass_ok_record (env : HarvestEnv) :
    ∀ (urls : List String) (st st' : PassSt),
    processPass env urls st = Except.ok st' →
    ∀ u ∈ urls, fetchOk env u = true →
      ∃ pd, recordOf env u = some (pd, env.now) ∧ pd.url = u := by
  intro urls
  induction urls with
  | nil => intro st st' h u hu; cases hu
  | cons v rest ih =>
      intro st st' h u hu hok
      simp only [processPass] at h
      cases hp : process_url env v st with
      | error e => rw [hp] at h; cases h
      | ok st1 =>
          rw [hp] at h
          cases List.mem_cons.mp hu with
          | inl huv =>
              subst huv
              unfold process_url at hp
              cases hf : env.fetch u with
              | mk a b =>
                  rw [hf] at hp
                  cases a with
                  | some html =>
                      dsimp only at hp
                      cases hpf : parsePropertyFields html u with
                      | error e => rw [hpf] at hp; cases hp
                      | ok pd =>
                          exact ⟨pd, by simp [recordOf, hf, hpf],
                            parsePropertyFields_url html u pd hpf⟩
                  | none => simp [fetchOk, hf] at hok
          | inr hur => exact ih st1 st' h u hur hok

/-- Claim C10: every completed `process_url` call appends exactly one
element to exactly one of the two shared counters — the success
counter when the fetch returned content (and the extracted record was
written to the results sink), the error counter when the fetch failed
(and the `(url, error)` row was written to the error sink) — so when a
pass over submitted URLs finishes, the success count plus the error
count equals the number of URLs submitted. -/
theorem claim_C10 :
    (∀ (env : HarvestEnv) (url : String) (st st' : PassSt),
      process_url env url st = Except.ok st' →
        (fetchOk env url = true ∧
         st'.succCount = st.succCount + 1 ∧ st'.errCount = st.errCount ∧
         st'.fs.results.length = st.fs.results.length + 1 ∧
         st'.fs.errors = st.fs.errors) ∨
        (fetchOk env url = false ∧
         st'.errCount = st.errCount + 1 ∧ st'.succCount = st.succCount ∧
         st'.fs.errors.length = st.fs.errors.length + 1 ∧
         st'.fs.results = st.fs.results)) ∧
    (∀ (env : HarvestEnv) (urls : List String) (fs : FS) (st' : PassSt),
      processPass env urls ⟨fs, 0, 0⟩ = Except.ok st' →
        st'.succCount + st'.errCount = urls.length) := by
  constructor
  · intro env url st st' h
    unfold process_url at h
    cases hf : env.fetch url with
    | mk a b =>
        rw [hf] at h
        cases a with
        | some html =>
            dsimp only at h
            cases hpf : parsePropertyFields html url with
            | error e => rw [hpf] at h; cases h
            | ok pd =>
                rw [hpf] at h
                cases h
                exact Or.inl ⟨by simp [fetchOk, hf], rfl, rfl, by simp, rfl⟩
        | none =>
            dsimp only at h
            cases h
            exact Or.inr ⟨by simp [fetchOk, hf], rfl, rfl, by simp, rfl⟩
  · intro env urls fs st' h
    obtain ⟨-, -, hs, he⟩ := processPass_ok_spec env urls ⟨fs, 0, 0⟩ st' h
    rw [hs, he]
    simpa using filter_split_length (fun u => fetchOk env u) urls

/-- The concrete harvest environment of claim C10's witness: one URL
that fetches and one that fails. -/
def envC10 : HarvestEnv :=
  ⟨fun u => if u = "https://x/good" then (some ⟨none, none, none, none⟩, none)
            else (none, some "boom"),
   "2024-01-01 00:00:00"⟩

/-- Witness for claim C10 at a concrete two-URL pass. -/
theorem claim_C10_witness :
    ∃ st', processPass envC10 ["https://x/good", "https://x/bad"]
        ⟨⟨[], []⟩, 0, 0⟩ = Except.ok st' ∧
      st'.succCount + st'.errCount = 2 := by
  refine ⟨_, rfl, ?_⟩
  exact claim_C10.2 envC10 ["https://x/good", "https://x/bad"] ⟨[], []⟩ _ rfl

/-- Claim C7: `retry_failed_urls` reads the URLs out of the error
ledger, clears it, and resubmits each through the same per-URL
processing against the same results sink: successes append to the
results sink and are absent from the new ledger, URLs failing again
form the freshly initialized ledger; and a full city run performs
exactly one retry pass, so its final ledger is exactly the URLs that
failed in both passes. -/
theorem claim_C7 :
    (∀ (env : HarvestEnv) (fs : FS) (st' : PassSt),
      retry_failed_urls env fs = Except.ok st' →
        st'.fs.results = fs.results ++
          (fs.errors.map (fun row => row.1)).filterMap (recordOf env) ∧
        st'.fs.errors =
          (fs.errors.map (fun row => row.1)).filterMap (errorRowOf env) ∧
        (∀ u ∈ fs.errors.map (fun row => row.1), fetchOk env u = true →
          u ∈ st'.fs.results.map (fun r => r.1.url) ∧
          u ∉ st'.fs.errors.map (fun r => r.1))) ∧
    (∀ (env1 env2 : HarvestEnv) (links : List String) (stF : PassSt),
      runCity env1 env2 links = Except.ok stF →
        stF.fs.errors.map (fun r => r.1) =
          (links.filter (fun u => ¬ fetchOk env1 u)).filter
            (fun u => ¬ fetchOk env2 u)) := by
  have hretry : ∀ (env : HarvestEnv) (fs : FS) (st' : PassSt),
      retry_failed_urls env fs = Except.ok st' →
      st'.fs.results = fs.results ++
        (fs.errors.map (fun row => row.1)).filterMap (recordOf env) ∧
      st'.fs.errors =
        (fs.errors.map (fun row => row.1)).filterMap (errorRowOf env) ∧
      (∀ u ∈ fs.errors.map (fun row => row.1), fetchOk env u = true →
        ∃ pd, recordOf env u = some (pd, env.now) ∧ pd.url = u) := by
    intro env fs st' h
    unfold retry_failed_urls at h
    by_cases hempty : (fs.errors.map (fun row => row.1)).isEmpty
    · rw [if_pos hempty] at h
      cases h
      have hnil : fs.errors = [] := by
        cases herr : fs.errors with
        | nil => rfl
        | cons r t => rw [herr] at hempty; simp at hempty
      simp [hnil]
    · rw [if_neg hempty] at h
      obtain ⟨hr, he, -, -⟩ :=
        processPass_ok_spec env (fs.errors.map (fun row => row.1))
          ⟨⟨fs.results, []⟩, 0, 0⟩ st' h
      refine ⟨hr, by simpa using he, ?_⟩
      exact processPass_ok_record env (fs.errors.map (fun row => row.1))
        ⟨⟨fs.results, []⟩, 0, 0⟩ st' h
  constructor
  · intro env fs st' h
    obtain ⟨hr, he, hrec⟩ := hretry env fs st' h
    refine ⟨hr, he, ?_⟩
    intro u hu hok
    obtain ⟨pd, hpd, hpdu⟩ := hrec u hu hok
    constructor
    · rw [hr]
      refine List.mem_map.mpr ⟨(pd, env.now), ?_, hpdu⟩
      exact List.mem_append_right _ (List.mem_filterMap.mpr ⟨u, hu, hpd⟩)
    · rw [he]
      intro hmem
      obtain ⟨row, hrow, hfst⟩ := List.mem_map.mp hmem
      obtain ⟨a, ha, hra⟩ := List.mem_filterMap.mp hrow
      obtain ⟨hfst', hbad⟩ := errorRowOf_fst env a row hra
      rw [hfst'] at hfst
      rw [hfst] at hbad
      rw [hok] at hbad
      cases hbad
  · intro env1 env2 links stF h
    unfold runCity at h
    cases h1 : scrape_city env1 links ⟨[], []⟩ with
    | error e => rw [h1] at h; cases h
    | ok st1 =>
        rw [h1] at h
        unfold scrape_city at h1
        obtain ⟨-, he1, -, -⟩ :=
          processPass_ok_spec env1 links ⟨⟨[], []⟩, 0, 0⟩ st1 h1
        obtain ⟨-, he2, -⟩ := hretry env2 st1.fs stF h
        rw [he2]
        have hmapfst : st1.fs.errors.map (fun row => row.1) =
            links.filter (fun u => ¬ fetchOk env1 u) := by
          rw [he1]
          simpa using map_fst_filterMap_errorRowOf env1 links
        rw [hmapfst, map_fst_filterMap_errorRowOf env2]

/-- The first-pass environment of claim C7's witness: `a` succeeds,
`b` and `c` fail. -/
def envC7a : HarvestEnv :=
  ⟨fun u => if u = "a" then (some ⟨none, none, none, none⟩, none)
            else (none, some "down"),
   "t1"⟩

/-- The retry-pass environment of claim C7's witness: `b` now
succeeds, `c` fails again. -/
def envC7b : HarvestEnv :=
  ⟨fun u => if u = "c" then (none, some "still down")
            else (some ⟨none, none, none, none⟩, none),
   "t2"⟩

/-- Witness for claim C7 at a concrete three-URL run: the first pass
leaves `b` and `c` in the ledger, the retry clears it, `b` merges into
the results sink and leaves the new ledger, and the run's final ledger
is exactly the doubly-failing `c`. -/
theorem claim_C7_witness :
    ∃ st', retry_failed_urls envC7b ⟨[], [("b", "down"), ("c", "down")]⟩ =
        Except.ok st' ∧
      ("b" ∈ st'.fs.results.map (fun r => r.1.url) ∧
       "b" ∉ st'.fs.errors.map (fun r => r.1)) ∧
      (∃ stF, runCity envC7a envC7b ["a", "b", "c"] = Except.ok stF ∧
        stF.fs.errors.map (fun r => r.1) = ["c"]) := by
  refine ⟨_, rfl, ?_, ?_⟩
  · exact (claim_C7.1 envC7b ⟨[], [("b", "down"), ("c", "down")]⟩ _ rfl).2.2
      "b" (by simp) (by rfl)
  · refine ⟨_, rfl, ?_⟩
    have := claim_C7.2 envC7a envC7b ["a", "b", "c"] _ rfl
    rw [this]
    rfl

/-! ## Discovery-walk bookkeeping -/

/-- Fetching this URL cannot make `parse_properties` raise: whenever
the fetch yields content, parsing it returns (a possibly absent link
list) rather than an exception. -/
def pageBenign (env : DiscEnv) (u : Url) : Prop :=
  ∀ h, (env.fetch u).1 = some h → exceptOk (parse_properties h) = true

/-- The links one pagination page contributes: none on a failed fetch
or an absent/empty result block. -/
def pageLinks (env : DiscEnv) (u : Url) : List String :=
  match (env.fetch u).1 with
  | some h =>
      match parse_properties h with
      | .ok (some links) => links
      | _ => []
  | none => []

theorem scrape_all_pages_go_spec (env : DiscEnv) (base_url : Url) :
    ∀ (ps : List Nat) (acc : List String) (tr : List Url),
    (∀ p ∈ ps, pageBenign env (update_url_with_page base_url p)) →
    scrape_all_pages_go env base_url ps acc tr =
      (Except.ok (acc ++
         ps.flatMap (fun p => pageLinks env (update_url_with_page base_url p))),
       tr ++ ps.map (update_url_with_page base_url)) := by
  intro ps
  induction ps with
  | nil => intro acc tr hben; simp [scrape_all_pages_go]
  | cons p rest ih =>
      intro acc tr hben
      have hbenp := hben p (List.mem_cons_self p rest)
      have hbenr := fun q hq => hben q (List.mem_cons_of_mem p hq)
      cases hf : (env.fetch (update_url_with_page base_url p)).1 with
      | none =>
          rw [scrape_all_pages_go, hf]
          rw [ih _ _ hbenr]
          simp [pageLinks, hf]
      | some h =>
          have hok := hbenp h hf
          cases hp : parse_properties h with
          | error e => rw [hp] at hok; cases hok
          | ok linksOpt =>
              cases linksOpt with
              | none =>
                  rw [scrape_all_pages_go, hf]
                  dsimp only
                  rw [hp]
                  dsimp only
                  rw [ih _ _ hbenr]
                  simp [pageLinks, hf, hp]
              | some links =>
                  rw [scrape_all_pages_go, hf]
                  dsimp only
                  rw [hp]
                  dsimp only
                  rw [ih _ _ hbenr]
                  simp [pageLinks, hf, hp]

/-- A fully benign pagination window walks every page (skipping only
the failed or empty ones' links) and never raises. -/
theorem scrape_all_pages_spec (env : DiscEnv) (base_url : Url) (total : Int)
    (hben : ∀ u ∈ pageTrace base_url total, pageBenign env u) :
    scrape_all_pages env base_url total =
      (Except.ok ((pageNums total).flatMap
         (fun p => pageLinks env (update_url_with_page base_url p))),
       pageTrace base_url total) := by
  unfold scrape_all_pages
  rw [scrape_all_pages_go_spec env base_url (pageNums total) [] []
    (fun p hp => hben _ (List.mem_map_of_mem _ hp))]
  simp [pageTrace]

/-- Claim C6 — counterexample: dedup is exact string equality with no
trimming, so an area whose page data carries both `"a"` and `"a "`
returns both: two links that are equal after a whitespace trim. -/
theorem claim_C6_counterexample :
    (scrape_properties
        ⟨fun _ => (some ⟨some (J.obj [("props", J.obj [("pageProps", J.obj
          [("searchPageState", J.obj [("cat1", J.obj
            [("searchResults", J.obj [("listResults", J.arr
               [J.obj [("detailUrl", J.str "a")],
                J.obj [("detailUrl", J.str "a ")]])]),
             ("searchList", J.obj [("totalPages", J.num 1)])])])])])]),
          none, none, none⟩, none)⟩
        "02118" ("https://z", [("filterState", J.obj [])])).1 = ["a", "a "] ∧
    ("a" : String) ≠ "a " ∧ pyStrip "a" = pyStrip "a " :=
  ⟨rfl, by simp, rfl⟩

/-- Claim C6, amended: the link list `scrape_properties` returns for
an area contains no duplicates under exact string equality (the code
deduplicates with `set()` and never trims, so links differing only in
surrounding whitespace are distinct and may both appear). -/
theorem claim_C6_amended (env : DiscEnv) (zip_code : String) (base_url : Url) :
    (scrape_properties env zip_code base_url).1.Nodup := by
  unfold scrape_properties
  repeat' split
  all_goals first
    | exact List.nodup_nil
    | exact List.nodup_dedup _

/-- A search page whose embedded block reports `total` pages and
carries the given listing links. -/
def htmlFor (total : Int) (links : List String) : Html :=
  ⟨some (J.obj [("props", J.obj [("pageProps", J.obj [("searchPageState", J.obj
     [("cat1", J.obj
       [("searchResults", J.obj [("listResults",
           J.arr (links.map (fun s => J.obj [("detailUrl", J.str s)])))]),
        ("searchList", J.obj [("totalPages", J.num total)])])])])])]),
   none, none, none⟩

/-- Whether a URL's query state carries a `price` facet filter — how
the claim C5 environment tells facet sub-queries from the base URL. -/
def hasPriceFacet (u : Url) : Bool :=
  match getKey u.2 "filterState" with
  | some (J.obj fs) => hasKey fs "price"
  | _ => false

/-- Claim C5's environment: the base query fetches a 20-page result,
every price-faceted sub-query fails to fetch. -/
def envC5 : DiscEnv :=
  ⟨fun u => if hasPriceFacet u then (none, some "connection reset")
            else (some (htmlFor 20 ["a"]), none)⟩

def baseC5 : Url := ("https://z", [("filterState", J.obj [])])

/-- The first facet sub-query URL issued for `baseC5`: price band
0–300000, studio. -/
def facetU0 : Url :=
  ("https://z/", [("filterState", J.obj
     [("price", J.obj [("min", J.num 0), ("max", J.num 300000)]),
      ("mp", J.obj [("min", J.num 0)]),
      ("beds", J.obj [("min", J.num 0), ("max", J.num 0)])])])

/-- Claim C5 — counterexample: when the first facet sub-query's fetch
fails, the walk does not continue with the remaining pages and facet
sub-queries of the area: `total_pages(None)` raises, the exception is
caught at the area boundary, and only two URLs were ever fetched (the
base page and the one failed facet) out of the 42 facets the claim
expects to proceed. -/
theorem claim_C5_counterexample :
    scrape_properties envC5 "02118" baseC5 =
      (["a"], [baseC5, facetU0],
       some (PyErr.typeError "object of type NoneType has no len")) ∧
    [baseC5, facetU0].length = 2 :=
  ⟨rfl, rfl⟩

/-- Claim C5, amended: a fetch failure on a pagination page causes
only that page's links to be skipped — the walk completes and every
remaining page is still fetched — but a fetch failure on a facet
sub-query raises inside the area walk, aborting all remaining facet
sub-queries; the area then yields only the links accumulated so far. -/
theorem claim_C5_amended :
    (∀ (env : DiscEnv) (base_url : Url) (total : Int),
      (∀ u ∈ pageTrace base_url total, pageBenign env u) →
      scrape_all_pages env base_url total =
        (Except.ok ((pageNums total).flatMap
           (fun p => pageLinks env (update_url_with_page base_url p))),
         pageTrace base_url total)) ∧
    (∀ (env : DiscEnv) (zip_code : String) (base_url filtered_url u0 : Url)
       (h : Html) (links0 : List String) (n : Int),
      (env.fetch base_url).1 = some h →
      parse_properties h = Except.ok (some links0) →
      total_pages (some h) = Except.ok n →
      20 ≤ n →
      update_url_with_price base_url 0 (some 300000) 0 none =
        Except.ok filtered_url →
      update_url_with_beds filtered_url 0 (some 0) = Except.ok u0 →
      (env.fetch u0).1 = none →
      scrape_properties env zip_code base_url =
        (links0.dedup, [base_url, u0],
         some (PyErr.typeError "object of type NoneType has no len"))) := by
  constructor
  · exact scrape_all_pages_spec
  · intro env zip_code base_url filtered_url u0 h links0 n hfetch hparse htotal
      h20 hprice hbeds hfail
    unfold scrape_properties
    rw [hfetch]
    dsimp only
    rw [hparse]
    dsimp only
    rw [htotal]
    dsimp only
    rw [if_pos h20]
    unfold price_filters
    rw [priceLoop, hprice]
    dsimp only
    unfold bed_filters
    rw [bedLoop, hbeds]
    dsimp only
    rw [hfail]
    dsimp only
    simp

/-- Claim C5's witness environment for the paging part: page 2 of the
walk fails to fetch, every other URL serves a 3-page result with link
`"b"`. -/
def envC5w : DiscEnv :=
  ⟨fun u => if u.1 = "https://z/2_p/" then (none, some "reset")
            else (some (htmlFor 3 ["b"]), none)⟩

theorem envC5w_benign : ∀ u, pageBenign envC5w u := by
  intro u h hsome
  by_cases hc : u.1 = "https://z/2_p/"
  · simp [envC5w, hc] at hsome
  · simp [envC5w, hc] at hsome
    rw [← hsome]
    rfl

/-- The intermediate price-filtered URL of claim C5's witness. -/
def filteredC5 : Url :=
  ("https://z/", [("filterState", J.obj
     [("price", J.obj [("min", J.num 0), ("max", J.num 300000)]),
      ("mp", J.obj [("min", J.num 0)])])])

/-- Witness for claim C5's amended theorem: a concrete walk where
page 2 fails but page 3 still contributes its link, and a concrete
area whose first facet fetch failure aborts the facet walk. -/
theorem claim_C5_witness :
    (scrape_all_pages envC5w baseC5 3 =
       (Except.ok ((pageNums 3).flatMap
          (fun p => pageLinks envC5w (update_url_with_page baseC5 p))),
        pageTrace baseC5 3) ∧
     (pageNums 3).flatMap
       (fun p => pageLinks envC5w (update_url_with_page baseC5 p)) = ["b"] ∧
     (envC5w.fetch (update_url_with_page baseC5 2)).1 = none) ∧
    scrape_properties envC5 "02118" baseC5 =
      (["a"].dedup, [baseC5, facetU0],
       some (PyErr.typeError "object of type NoneType has no len")) := by
  refine ⟨⟨?_, rfl, rfl⟩, ?_⟩
  · exact claim_C5_amended.1 envC5w baseC5 3 (fun u _ => envC5w_benign u)
  · exact claim_C5_amended.2 envC5 "02118" baseC5 filteredC5 facetU0
      (htmlFor 20 ["a"]) ["a"] 20 rfl rfl rfl (le_refl 20) rfl rfl rfl

/-! ## Facet bands and the facet walk -/

/-- Membership of a value in a `(min, optional max)` band. -/
def inBand (band : Int × Option Int) (v : Int) : Prop :=
  band.1 ≤ v ∧ (match band.2 with
                | none => True
                | some mx => v ≤ mx)

/-- The bands of a list are pairwise disjoint. -/
def bandsDisjoint (bands : List (Int × Option Int)) : Prop :=
  List.Pairwise (fun a b => ∀ v : Int, ¬ (inBand a v ∧ inBand b v)) bands

/-- An earlier band is bounded strictly below a later band's minimum. -/
def gapB (a b : Int × Option Int) : Bool :=
  match a.2 with
  | some mx => mx < b.1
  | none => false

theorem gap_disjoint (a b : Int × Option Int) (h : gapB a b = true) :
    ∀ v : Int, ¬ (inBand a v ∧ inBand b v) := by
  intro v hv
  obtain ⟨⟨ha1, ha2⟩, hb1, hb2⟩ := hv
  unfold gapB at h
  cases hm : a.2 with
  | none => rw [hm] at h; cases h
  | some mx =>
      rw [hm] at h
      simp only [hm] at ha2
      simp only [decide_eq_true_eq] at h
      omega

theorem price_bands_disjoint : bandsDisjoint price_filters := by
  have hp : List.Pairwise (fun a b => gapB a b = true) price_filters := by decide
  exact hp.imp (fun hab => gap_disjoint _ _ hab)

theorem bed_bands_disjoint : bandsDisjoint bed_filters := by
  have hp : List.Pairwise (fun a b => gapB a b = true) bed_filters := by decide
  exact hp.imp (fun hab => gap_disjoint _ _ hab)

theorem bedLoop_spec (env : DiscEnv) (filtered_url : Url)
    (uOf : (Int × Option Int) → Url) (nOf : (Int × Option Int) → Int) :
    ∀ (bs : List (Int × Option Int)) (acc : List String) (tr : List Url),
    (∀ b ∈ bs, update_url_with_beds filtered_url b.1 b.2 = Except.ok (uOf b)) →
    (∀ b ∈ bs, ∃ hb, (env.fetch (uOf b)).1 = some hb ∧
       total_pages (some hb) = Except.ok (nOf b) ∧
       ∃ lb, parse_properties hb = Except.ok (some lb)) →
    (∀ b ∈ bs, ∀ u ∈ pageTrace (uOf b) (nOf b), pageBenign env u) →
    ∃ acc', bedLoop env filtered_url bs acc tr =
      (acc', tr ++ bs.flatMap (fun b => uOf b :: pageTrace (uOf b) (nOf b)),
       none) := by
  intro bs
  induction bs with
  | nil => intro acc tr h1 h2 h3; exact ⟨acc, by simp [bedLoop]⟩
  | cons b rest ih =>
      intro acc tr h1 h2 h3
      obtain ⟨hb, hfetch, htotal, lb, hparse⟩ := h2 b (List.mem_cons_self b rest)
      have hupd := h1 b (List.mem_cons_self b rest)
      obtain ⟨b1, b2⟩ := b
      rw [bedLoop, hupd]
      dsimp only
      rw [hfetch]
      dsimp only
      rw [htotal]
      dsimp only
      rw [hparse]
      dsimp only
      rw [scrape_all_pages_spec env (uOf (b1, b2)) (nOf (b1, b2))
        (h3 (b1, b2) (List.mem_cons_self _ rest))]
      dsimp only
      obtain ⟨acc', heq⟩ := ih (acc ++ lb ++ (pageNums (nOf (b1, b2))).flatMap
          (fun p => pageLinks env (update_url_with_page (uOf (b1, b2)) p)))
        (tr ++ [uOf (b1, b2)] ++ pageTrace (uOf (b1, b2)) (nOf (b1, b2)))
        (fun q hq => h1 q (List.mem_cons_of_mem _ hq))
        (fun q hq => h2 q (List.mem_cons_of_mem _ hq))
        (fun q hq => h3 q (List.mem_cons_of_mem _ hq))
      rw [heq]
      exact ⟨acc', by simp⟩

theorem priceLoop_spec (env : DiscEnv) (base_url : Url)
    (fOf : (Int × Option Int) → Url)
    (uOf : (Int × Option Int) × (Int × Option Int) → Url)
    (nOf : (Int × Option Int) × (Int × Option Int) → Int) :
    ∀ (ps : List (Int × Option Int)) (acc : List String) (tr : List Url),
    (∀ p ∈ ps,
      update_url_with_price base_url p.1 p.2 0 none = Except.ok (fOf p)) →
    (∀ p ∈ ps, ∀ b ∈ bed_filters,
      update_url_with_beds (fOf p) b.1 b.2 = Except.ok (uOf (p, b))) →
    (∀ p ∈ ps, ∀ b ∈ bed_filters, ∃ hb, (env.fetch (uOf (p, b))).1 = some hb ∧
       total_pages (some hb) = Except.ok (nOf (p, b)) ∧
       ∃ lb, parse_properties hb = Except.ok (some lb)) →
    (∀ p ∈ ps, ∀ b ∈ bed_filters,
      ∀ u ∈ pageTrace (uOf (p, b)) (nOf (p, b)), pageBenign env u) →
    ∃ acc', priceLoop env base_url ps acc tr =
      (acc', tr ++ ps.flatMap (fun p => bed_filters.flatMap
         (fun b => uOf (p, b) :: pageTrace (uOf (p, b)) (nOf (p, b)))),
       none) := by
  intro ps
  induction ps with
  | nil => intro acc tr h1 h2 h3 h4; exact ⟨acc, by simp [priceLoop]⟩
  | cons p rest ih =>
      intro acc tr h1 h2 h3 h4
      have hupd := h1 p (List.mem_cons_self p rest)
      obtain ⟨p1, p2⟩ := p
      rw [priceLoop, hupd]
      dsimp only
      obtain ⟨accB, hB⟩ := bedLoop_spec env (fOf (p1, p2))
        (fun b => uOf ((p1, p2), b)) (fun b => nOf ((p1, p2), b))
        bed_filters acc tr
        (h2 (p1, p2) (List.mem_cons_self _ rest))
        (h3 (p1, p2) (List.mem_cons_self _ rest))
        (h4 (p1, p2) (List.mem_cons_self _ rest))
      rw [hB]
      dsimp only
      obtain ⟨acc', heq⟩ := ih accB
        (tr ++ bed_filters.flatMap
          (fun b => uOf ((p1, p2), b) ::
            pageTrace (uOf ((p1, p2), b)) (nOf ((p1, p2), b))))
        (fun q hq => h1 q (List.mem_cons_of_mem _ hq))
        (fun q hq => h2 q (List.mem_cons_of_mem _ hq))
        (fun q hq => h3 q (List.mem_cons_of_mem _ hq))
        (fun q hq => h4 q (List.mem_cons_of_mem _ hq))
      rw [heq]
      exact ⟨acc', by simp⟩

/-- Claim C1: from the base page's reported total-page count,
`scrape_properties` either (count < 20) pages directly from page 2
through the count with no facet split — the fetch trace is exactly the
base URL followed by the direct page URLs — or (count ≥ 20) issues
exactly the 7 disjoint price bands crossed with the 6 disjoint bed
bands — 42 sub-queries, each built by mutating the base state's price
then beds filters and each paged independently by the same direct
paging rule with its own reported count. -/
theorem claim_C1 (env : DiscEnv) (zip_code : String) (base_url : Url)
    (h : Html) (links0 : List String) (n : Int)
    (hfetch : (env.fetch base_url).1 = some h)
    (hparse : parse_properties h = Except.ok (some links0))
    (htotal : total_pages (some h) = Except.ok n) :
    (n < 20 → (∀ u ∈ pageTrace base_url n, pageBenign env u) →
      scrape_properties env zip_code base_url =
        ((links0 ++ (pageNums n).flatMap
            (fun p => pageLinks env (update_url_with_page base_url p))).dedup,
         base_url :: pageTrace base_url n, none)) ∧
    (20 ≤ n →
      ∀ (fOf : (Int × Option Int) → Url)
        (uOf : (Int × Option Int) × (Int × Option Int) → Url)
        (nOf : (Int × Option Int) × (Int × Option Int) → Int),
      (∀ p ∈ price_filters,
        update_url_with_price base_url p.1 p.2 0 none = Except.ok (fOf p)) →
      (∀ p ∈ price_filters, ∀ b ∈ bed_filters,
        update_url_with_beds (fOf p) b.1 b.2 = Except.ok (uOf (p, b))) →
      (∀ p ∈ price_filters, ∀ b ∈ bed_filters,
        ∃ hb, (env.fetch (uOf (p, b))).1 = some hb ∧
          total_pages (some hb) = Except.ok (nOf (p, b)) ∧
          ∃ lb, parse_properties hb = Except.ok (some lb)) →
      (∀ p ∈ price_filters, ∀ b ∈ bed_filters,
        ∀ u ∈ pageTrace (uOf (p, b)) (nOf (p, b)), pageBenign env u) →
      (∃ links, scrape_properties env zip_code base_url =
         (links,
          base_url :: price_filters.flatMap (fun p => bed_filters.flatMap
            (fun b => uOf (p, b) :: pageTrace (uOf (p, b)) (nOf (p, b)))),
          none)) ∧
      (price_filters.flatMap
        (fun p => bed_filters.map (fun b => uOf (p, b)))).length = 42) ∧
    bandsDisjoint price_filters ∧ bandsDisjoint bed_filters := by
  refine ⟨?_, ?_, price_bands_disjoint, bed_bands_disjoint⟩
  · intro hlt hben
    unfold scrape_properties
    rw [hfetch]
    dsimp only
    rw [hparse]
    dsimp only
    rw [htotal]
    dsimp only
    rw [if_neg (by omega : ¬ 20 ≤ n)]
    rw [scrape_all_pages_spec env base_url n hben]
    dsimp only
    simp
  · intro h20 fOf uOf nOf h1 h2 h3 h4
    constructor
    · unfold scrape_properties
      rw [hfetch]
      dsimp only
      rw [hparse]
      dsimp only
      rw [htotal]
      dsimp only
      rw [if_pos h20]
      obtain ⟨acc', heq⟩ := priceLoop_spec env base_url fOf uOf nOf
        price_filters links0 [base_url] h1 h2 h3 h4
      rw [heq]
      exact ⟨acc'.dedup, by simp⟩
    · simp [price_filters, bed_filters]

/-- Claim C1's witness environment: every URL serves a page reporting
21 total pages with the single link `"c"`. -/
def envC1 : DiscEnv := ⟨fun _ => (some (htmlFor 21 ["c"]), none)⟩

def baseC1 : Url := ("https://w", [("filterState", J.obj [])])

/-- The price-filtered URL for a price band (total function used to
instantiate claim C1's `fOf`). -/
def priceUrlOf (base : Url) (p : Int × Option Int) : Url :=
  match update_url_with_price base p.1 p.2 0 none with
  | .ok fu => fu
  | .error _ => base

/-- The facet sub-query URL for a price-band/bed-band pair (total
function used to instantiate claim C1's `uOf`). -/
def facetUrlOf (base : Url) (pb : (Int × Option Int) × (Int × Option Int)) :
    Url :=
  match update_url_with_price base pb.1.1 pb.1.2 0 none with
  | .ok fu =>
      match update_url_with_beds fu pb.2.1 pb.2.2 with
      | .ok u => u
      | .error _ => base
  | .error _ => base

theorem envC1_benign : ∀ u, pageBenign envC1 u := by
  intro u h hsome
  simp [envC1] at hsome
  rw [← hsome]
  rfl

/-- Witness for claim C1 at a concrete area reporting 21 pages: the
walk issues the base URL, then the 42 facet sub-queries each followed
by its own direct pagination, and the bands are disjoint. -/
theorem claim_C1_witness :
    (∃ links, scrape_properties envC1 "02118" baseC1 =
       (links,
        baseC1 :: price_filters.flatMap (fun p => bed_filters.flatMap
          (fun b => facetUrlOf baseC1 (p, b) ::
            pageTrace (facetUrlOf baseC1 (p, b)) 21)),
        none)) ∧
    (price_filters.flatMap
      (fun p => bed_filters.map (fun b => facetUrlOf baseC1 (p, b)))).length
        = 42 ∧
    bandsDisjoint price_filters ∧ bandsDisjoint bed_filters := by
  have hmain := claim_C1 envC1 "02118" baseC1 (htmlFor 21 ["c"]) ["c"] 21
    rfl rfl rfl
  have hfacet := hmain.2.1 (by norm_num)
    (priceUrlOf baseC1) (fun pb => facetUrlOf baseC1 pb) (fun _ => 21)
    (by
      intro p hp
      simp only [price_filters, List.mem_cons, List.not_mem_nil, or_false] at hp
      rcases hp with rfl | rfl | rfl | rfl | rfl | rfl | rfl <;> rfl)
    (by
      intro p hp b hb
      simp only [price_filters, List.mem_cons, List.not_mem_nil, or_false] at hp
      simp only [bed_filters, List.mem_cons, List.not_mem_nil, or_false] at hb
      rcases hp with rfl | rfl | rfl | rfl | rfl | rfl | rfl <;>
        rcases hb with rfl | rfl | rfl | rfl | rfl | rfl <;> rfl)
    (fun p hp b hb => ⟨htmlFor 21 ["c"], rfl, rfl, ["c"], rfl⟩)
    (fun p hp b hb u hu => envC1_benign u)
  exact ⟨hfacet.1, hfacet.2, hmain.2.2⟩

end ZillowPipeline
